import Mathlib

/-!
Shallow embedding of the two iced_web widgets of this repository:
`src/web/src/widget/checkbox.rs` and `src/web/src/widget/radio.rs`.

Pure data (the widget structs, the dodrio virtual-node fragment they build)
is embedded as Lean structures and inductives.  The mutable style-sheet
registry (`Css`) is embedded by explicit state passing: `node` takes the
registry and returns the updated registry together with the produced node.
A DOM event handler installed by `.on("click", ...)` in this code ignores
the event payload, so each firing has a fixed observable effect; handlers
are therefore embedded as that effect (the list of messages published to
the bus and the number of re-renders scheduled).
-/

/-- Layout length (`iced::Length`); `Shrink` is the Checkbox default
(`Length::Shrink` in `Checkbox::new`). -/
inductive Length where
  | Fill : Length
  | Shrink : Length
  | Units : Nat → Length
deriving DecidableEq, Repr

/-- Modelled from the spec: the length-to-string formatter (`css::length`,
consumed from outside src/) converts an abstract layout-length value into a
CSS length literal. -/
def cssLength : Length → String
  | Length.Fill => "100%"
  | Length.Shrink => "auto"
  | Length.Units n => toString n ++ "px"

/-- Modelled from the spec: the closed set of semantic style descriptors
(`css::Rule`, consumed from outside src/): a row-layout rule and a fixed
spacing-by-amount rule. -/
inductive Rule where
  | Row : Rule
  | Spacing : Nat → Rule
deriving DecidableEq, Repr

/-- Modelled from the spec: each rule value maps to a deterministic
class-identifier token. -/
def Rule.cssClass : Rule → String
  | Rule.Row => "r"
  | Rule.Spacing n => "s-" ++ toString n

/-- Modelled from the spec: the style-sheet registry (`Css`, consumed from
outside src/) maps semantic style rules to CSS class identifiers; it
deduplicates identical rules across a render pass. -/
structure Css where
  rules : List Rule
deriving DecidableEq, Repr

/-- Modelled from the spec: `insert(allocator, rule) -> class_token`.
Registers the rule, deduplicating per rule value, and returns its class
token; idempotent per rule value. -/
def Css.insert (css : Css) (r : Rule) : Css × String :=
  if r ∈ css.rules then (css, r.cssClass)
  else (⟨css.rules ++ [r]⟩, r.cssClass)

/-- One dodrio attribute: a plain string attribute (`attr`) or a boolean
attribute (`bool_attr`), which is present in the rendered markup iff its
flag is true. -/
inductive Attr where
  | attr : String → String → Attr
  | boolAttr : String → Bool → Attr
deriving DecidableEq, Repr

/-- Observable effect of firing one of this code's event handlers once:
the messages published to the bus and the number of re-renders scheduled.
(The closures installed here ignore the event payload, so every firing has
this fixed effect.) -/
structure HandlerEffect (Message : Type) where
  published : List Message
  renders : Nat
deriving DecidableEq, Repr

/-- A dodrio virtual node: an element with tag, attributes, event listeners
and children, or a text node. -/
inductive Node (Message : Type) where
  | element : String → List Attr → List (String × HandlerEffect Message) →
      List (Node Message) → Node Message
  | text : String → Node Message

/-- The tag of an element node (empty for a text node). -/
def Node.tag {Message : Type} : Node Message → String
  | Node.element t _ _ _ => t
  | Node.text _ => ""

/-- The attributes of an element node. -/
def Node.attrs {Message : Type} : Node Message → List Attr
  | Node.element _ a _ _ => a
  | Node.text _ => []

/-- The event listeners of an element node. -/
def Node.listeners {Message : Type} :
    Node Message → List (String × HandlerEffect Message)
  | Node.element _ _ l _ => l
  | Node.text _ => []

/-- The children of an element node. -/
def Node.children {Message : Type} : Node Message → List (Node Message)
  | Node.element _ _ _ c => c
  | Node.text _ => []

/-- Markup of one attribute, as serialized into HTML: a boolean attribute
appears (name only) iff its flag is true. -/
def Attr.render : Attr → String
  | Attr.attr n v => " " ++ n ++ "=\"" ++ v ++ "\""
  | Attr.boolAttr n b => if b then " " ++ n else ""

mutual

/-- The markup of a virtual node (listeners are not part of markup). -/
def Node.render {Message : Type} : Node Message → String
  | Node.element tag as _ cs =>
      "<" ++ tag ++ String.join (as.map Attr.render) ++ ">"
        ++ Node.renderList cs ++ "</" ++ tag ++ ">"
  | Node.text s => s

/-- Concatenated markup of a list of virtual nodes. -/
def Node.renderList {Message : Type} : List (Node Message) → String
  | [] => ""
  | n :: ns => Node.render n ++ Node.renderList ns

end

/-- Whether an attribute named `n` is present in `as`: a plain attribute is
always present, a boolean attribute is present iff its flag is true. -/
def attrPresent (as : List Attr) (n : String) : Bool :=
  as.any fun a =>
    match a with
    | Attr.attr m _ => m == n
    | Attr.boolAttr m b => m == n && b

/-- Modelled from the spec: the polymorphic style descriptor
(`Box<dyn StyleSheet>` in the source).  Neither widget ever reads it in this
code (styling is an explicit TODO boundary), so it is embedded as an opaque
token with a default value. -/
structure StyleDesc where
  token : Nat
deriving DecidableEq, Repr, Inhabited

/-- The `Checkbox<Message>` struct of checkbox.rs, field for field. -/
structure Checkbox (Message : Type) where
  is_checked : Bool
  on_toggle : Bool → Message
  label : String
  id : String
  width : Length
  style : StyleDesc

/-- `Checkbox::new(is_checked, label, f)`: id defaults to the empty string,
width to `Length::Shrink`, style to the default style descriptor. -/
def Checkbox.new {Message : Type} (is_checked : Bool) (label : String)
    (f : Bool → Message) : Checkbox Message :=
  { is_checked := is_checked
    on_toggle := f
    label := label
    id := ""
    width := Length.Shrink
    style := default }

/-- Builder method `Checkbox::width`. -/
def Checkbox.width' {Message : Type} (self : Checkbox Message) (width : Length) :
    Checkbox Message :=
  { self with width := width }

/-- Builder method `Checkbox::style`. -/
def Checkbox.style' {Message : Type} (self : Checkbox Message) (style : StyleDesc) :
    Checkbox Message :=
  { self with style := style }

/-- Builder method `Checkbox::id`. -/
def Checkbox.id' {Message : Type} (self : Checkbox Message) (id : String) :
    Checkbox Message :=
  { self with id := id }

/-- `Checkbox::node` (checkbox.rs lines 90-139): registers the `Row` and
`Spacing(5)` rules, then builds
`<label for class style><input type=checkbox id checked? on:click/>{label}</label>`.
The click handler computes `on_toggle(!is_checked)`, publishes it, and
schedules one re-render. -/
def Checkbox.node {Message : Type} (self : Checkbox Message) (style_sheet : Css) :
    Css × Node Message :=
  let checkbox_label := self.label
  let checkbox_id := self.id
  let is_checked := self.is_checked
  let rc := style_sheet.insert Rule.Row
  let row_class := rc.2
  let sc := rc.1.insert (Rule.Spacing 5)
  let spacing_class := sc.2
  (sc.1,
    Node.element "label"
      [ Attr.attr "for" checkbox_id,
        Attr.attr "class" (row_class ++ " " ++ spacing_class),
        Attr.attr "style"
          ("width: " ++ cssLength self.width ++ "; align-items: center") ]
      []
      [ Node.element "input"
          [ Attr.attr "type" "checkbox",
            Attr.attr "id" checkbox_id,
            Attr.boolAttr "checked" is_checked ]
          [ ("click",
              { published := [self.on_toggle (!is_checked)], renders := 1 }) ]
          [],
        Node.text checkbox_label ])

/-- The `Radio<Message>` struct of radio.rs, field for field. -/
structure Radio (Message : Type) where
  is_selected : Bool
  on_click : Message
  label : String
  id : String
  name : String
  style : StyleDesc

/-- `Radio::new(value, label, selected, f)`: `is_selected` is
`Some(value) == selected`, `on_click` is computed eagerly as `f(value)`;
id and name default to the empty string, style to the default descriptor. -/
def Radio.new {Message V : Type} [DecidableEq V] (value : V) (label : String)
    (selected : Option V) (f : V → Message) : Radio Message :=
  { is_selected := decide (some value = selected)
    on_click := f value
    label := label
    id := ""
    name := ""
    style := default }

/-- Builder method `Radio::style`. -/
def Radio.style' {Message : Type} (self : Radio Message) (style : StyleDesc) :
    Radio Message :=
  { self with style := style }

/-- Builder method `Radio::name`. -/
def Radio.name' {Message : Type} (self : Radio Message) (name : String) :
    Radio Message :=
  { self with name := name }

/-- Builder method `Radio::id`. -/
def Radio.id' {Message : Type} (self : Radio Message) (id : String) :
    Radio Message :=
  { self with id := id }

/-- `Radio::node` (radio.rs lines 103-138): ignores the style-sheet registry
(the parameter is `_style_sheet`) and builds
`<label style for><input type=radio id name style checked? on:click/>{label}</label>`.
The click handler publishes a clone of the precomputed `on_click` message
and schedules no re-render. -/
def Radio.node {Message : Type} (self : Radio Message) (style_sheet : Css) :
    Css × Node Message :=
  (style_sheet,
    Node.element "label"
      [ Attr.attr "style" "display: block; font-size: 20px",
        Attr.attr "for" self.id ]
      []
      [ Node.element "input"
          [ Attr.attr "type" "radio",
            Attr.attr "id" self.id,
            Attr.attr "name" self.name,
            Attr.attr "style" "margin-right: 10px",
            Attr.boolAttr "checked" self.is_selected ]
          [ ("click", { published := [self.on_click], renders := 0 }) ]
          [],
        Node.text self.label ])

/-- C1: for every boolean `c`, label string, and callback `f`, rendering a
Checkbox constructed with `is_checked = c` produces an input node of type
checkbox whose boolean `checked` attribute is present iff `c` is true. -/
theorem checkbox_checked_attr_iff {M : Type} (c : Bool) (lbl : String)
    (f : Bool → M) (css : Css) :
    ∃ inp : Node M,
      ((Checkbox.new c lbl f).node css).2.children.head? = some inp ∧
      inp.tag = "input" ∧
      Attr.attr "type" "checkbox" ∈ inp.attrs ∧
      (attrPresent inp.attrs "checked" = true ↔ c = true) := by
  refine ⟨_, rfl, rfl, ?_, ?_⟩
  · exact List.Mem.head _
  · simp [Checkbox.new, Node.attrs, attrPresent]

/-- C2: for every Checkbox constructed with `is_checked = c` and callback
`f`, firing the click handler of the rendered input publishes exactly the
one message `f (!c)` to the bus and schedules exactly one re-render; the
input carries exactly this one listener. -/
theorem checkbox_click_effect {M : Type} (c : Bool) (lbl : String)
    (f : Bool → M) (css : Css) :
    ∃ inp : Node M,
      ((Checkbox.new c lbl f).node css).2.children.head? = some inp ∧
      inp.listeners = [("click", { published := [f (!c)], renders := 1 })] :=
  ⟨_, rfl, rfl⟩

/-- C3: `Radio::new(v, label, s, f)` sets `is_selected` to true iff
`Some(v) == s`. -/
theorem radio_is_selected_iff {M V : Type} [DecidableEq V] (v : V)
    (lbl : String) (s : Option V) (f : V → M) :
    (Radio.new v lbl s f).is_selected = true ↔ some v = s := by
  simp [Radio.new]

/-- C4: `Radio::new(v, label, s, f)` eagerly computes `on_click = f v` at
construction, and the rendered radio's click handler publishes exactly that
precomputed message, unaffected by builder changes applied after
construction. -/
theorem radio_on_click_eager {M V : Type} [DecidableEq V] (v : V)
    (lbl : String) (s : Option V) (f : V → M) (i nm : String)
    (st : StyleDesc) (css : Css) :
    (Radio.new v lbl s f).on_click = f v ∧
    ∃ inp : Node M,
      (((((Radio.new v lbl s f).id' i).name' nm).style' st).node
          css).2.children.head? = some inp ∧
      inp.listeners = [("click", { published := [f v], renders := 0 })] :=
  ⟨rfl, _, rfl, rfl⟩

/-- C5: firing a rendered Radio's click handler publishes the precomputed
`on_click` message and never schedules a re-render, in contrast to the
Checkbox click handler whose effect schedules exactly one. -/
theorem radio_click_no_render {M : Type} (r : Radio M) (cb : Checkbox M)
    (css1 css2 : Css) :
    (∃ inp : Node M,
      (r.node css1).2.children.head? = some inp ∧
      inp.listeners = [("click", { published := [r.on_click], renders := 0 })]) ∧
    (∃ inp : Node M, ∃ e : HandlerEffect M,
      (cb.node css2).2.children.head? = some inp ∧
      inp.listeners = [("click", e)] ∧ e.renders = 1) :=
  ⟨⟨_, rfl, rfl⟩, ⟨_, _, rfl, rfl, rfl⟩⟩

/-- C6: builder setter chains on disjoint fields commute: `width`/`id`,
`width`/`style`, `style`/`id` for Checkbox and `style`/`id`, `style`/`name`,
`name`/`id` for Radio give identical final widgets in either order. -/
theorem builder_setters_commute {M : Type} (cb : Checkbox M) (r : Radio M)
    (w : Length) (i : String) (st : StyleDesc) (nm : String) :
    (cb.width' w).id' i = (cb.id' i).width' w ∧
    (cb.width' w).style' st = (cb.style' st).width' w ∧
    (cb.style' st).id' i = (cb.id' i).style' st ∧
    (r.style' st).id' i = (r.id' i).style' st ∧
    (r.style' st).name' nm = (r.name' nm).style' st ∧
    (r.name' nm).id' i = (r.id' i).name' nm :=
  ⟨rfl, rfl, rfl, rfl, rfl, rfl⟩

/-- C7: every call to `Checkbox::node` registers exactly the row-layout rule
followed by the spacing-5 rule against the registry (and nothing else), and
the label's attributes carry the two returned class tokens, row then
spacing, as the class attribute. -/
theorem checkbox_registers_two_rules {M : Type} (cb : Checkbox M) (css : Css) :
    (cb.node css).1 = ((css.insert Rule.Row).1.insert (Rule.Spacing 5)).1 ∧
    (cb.node css).2.attrs =
      [ Attr.attr "for" cb.id,
        Attr.attr "class"
          ((css.insert Rule.Row).2 ++ " "
            ++ ((css.insert Rule.Row).1.insert (Rule.Spacing 5)).2),
        Attr.attr "style"
          ("width: " ++ cssLength cb.width ++ "; align-items: center") ] :=
  ⟨rfl, rfl⟩

/-- C8: rendering is deterministic: two Checkboxes (resp. Radios) with
identical configuration (state, label, id, name, width, style, callback
results), rendered against equal registry states, produce byte-identical
markup. -/
theorem render_deterministic {M : Type} (c1 c2 : Checkbox M) (r1 r2 : Radio M)
    (css1 css2 css3 css4 : Css)
    (hc1 : c1.is_checked = c2.is_checked) (hc2 : c1.label = c2.label)
    (hc3 : c1.id = c2.id) (hc4 : c1.width = c2.width)
    (_hc5 : c1.style = c2.style) (_hc6 : ∀ b, c1.on_toggle b = c2.on_toggle b)
    (hcssA : css1 = css2)
    (hr1 : r1.is_selected = r2.is_selected) (hr2 : r1.label = r2.label)
    (_hc7 : r1.style = r2.style)
    (hr3 : r1.id = r2.id) (hr4 : r1.name = r2.name)
    (_hc8 : r1.on_click = r2.on_click) (hcssB : css3 = css4) :
    Node.render (c1.node css1).2 = Node.render (c2.node css2).2 ∧
    Node.render (r1.node css3).2 = Node.render (r2.node css4).2 := by
  subst hcssA hcssB
  constructor
  · simp [Checkbox.node, Node.render, Node.renderList, Attr.render,
      hc1, hc2, hc3, hc4]
  · simp [Radio.node, Node.render, Node.renderList, Attr.render,
      hr1, hr2, hr3, hr4]

/-- Witness for C8 at a concrete configuration. -/
theorem render_deterministic_witness :
    Node.render ((Checkbox.new true "a"
        (fun b : Bool => if b then (1 : Nat) else 0)).node ⟨[]⟩).2
      = Node.render ((Checkbox.new true "a"
        (fun b : Bool => if b then (1 : Nat) else 0)).node ⟨[]⟩).2 ∧
    Node.render ((Radio.new (0 : Nat) "b" (some 0) (fun n : Nat => n)).node
        ⟨[]⟩).2
      = Node.render ((Radio.new (0 : Nat) "b" (some 0) (fun n : Nat => n)).node
        ⟨[]⟩).2 :=
  render_deterministic _ _ _ _ _ _ _ _ rfl rfl rfl rfl rfl (fun _ => rfl) rfl
    rfl rfl rfl rfl rfl rfl rfl

/-- C9: `Radio::node` produces exactly the template
`<label style="display: block; font-size: 20px" for={id}><input type=radio
id={id} name={name} style="margin-right: 10px" checked?/>{label}</label>`,
with the checked attribute present iff `is_selected`; the inline styles are
literal. -/
theorem radio_node_template {M : Type} (r : Radio M) (css : Css) :
    (r.node css).2 = Node.element "label"
        [ Attr.attr "style" "display: block; font-size: 20px",
          Attr.attr "for" r.id ] []
        [ Node.element "input"
            [ Attr.attr "type" "radio", Attr.attr "id" r.id,
              Attr.attr "name" r.name, Attr.attr "style" "margin-right: 10px",
              Attr.boolAttr "checked" r.is_selected ]
            [ ("click", { published := [r.on_click], renders := 0 }) ] [],
          Node.text r.label ] ∧
    (∀ inp : Node M, (r.node css).2.children.head? = some inp →
      attrPresent inp.attrs "checked" = r.is_selected) := by
  refine ⟨rfl, ?_⟩
  intro inp h
  cases h
  simp [Radio.node, Node.attrs, attrPresent]

/-- C10: `Radio::node` leaves the style-sheet registry unchanged for every
Radio and every registry state; only Checkbox rendering inserts rules. -/
theorem radio_node_registry_unchanged {M : Type} (r : Radio M) (css : Css) :
    (r.node css).1 = css :=
  rfl
